import Mathlib

/-!
Verification development for the kometizarr rating-overlay system.

The definitions below are a shallow embedding of the Python sources:
* `src/rating_overlay/backup_manager.py` (PosterBackupManager),
* `src/rating_overlay/plex_poster_manager.py` (PlexPosterManager.process_movie),
* `src/rating_overlay/multi_rating_badge.py` (MultiRatingBadge),
* `web/backend/main.py` (start_processing, process_library_background).

Filesystem state is modelled as a finite map from backup-directory keys to
records of which files exist in the directory; network effects (poster
download, image verification, upload) are modelled as explicit boolean
oracles, exactly mirroring the exception paths the Python code handles.
-/

namespace Kometizarr

/-- Python `int()` truncation toward zero, on rationals standing in for floats. -/
def pyInt (q : ℚ) : ℤ := if q < 0 then ⌈q⌉ else ⌊q⌋

/-- Does the first character list start with the second? -/
def startsWithChars : List Char → List Char → Bool
  | _, [] => true
  | [], _ :: _ => false
  | c :: cs, d :: ds => c = d && startsWithChars cs ds

/-- Does the first character list contain the second as a contiguous run? -/
def charsContain (l sub : List Char) : Bool :=
  match l with
  | [] => sub.isEmpty
  | _ :: rest => startsWithChars l sub || charsContain rest sub

/-- Python `sub in s` substring test. -/
def strContains (s sub : String) : Bool := charsContain s.toList sub.toList

/-- Characters kept by the title sanitizer in `_get_backup_path`:
`c.isalnum() or c in (' ', '-', '_')`. -/
def keepChar (c : Char) : Bool := c.isAlphanum || c = ' ' || c = '-' || c = '_'

/-- Python `str.strip()` on a list of characters. -/
def stripChars (l : List Char) : List Char :=
  ((l.dropWhile Char.isWhitespace).reverse.dropWhile Char.isWhitespace).reverse

/-- `safe_title = "".join(c for c in item_title if keep(c)).strip()`
(backup_manager.py line 47). -/
def sanitizeTitle (t : String) : String :=
  (stripChars (t.toList.filter keepChar)).asString

/-- Python truthiness of the optional `year` argument (`if year:`):
both `None` and `0` are falsy. -/
def effYear : Option Nat → Option Nat
  | some 0 => none
  | some y => some y
  | none => none

/-- Name of a backup directory under the library folder: either the bare
sanitized title (legacy) or `"title (year)"`.  The sanitizer strips
parentheses, so the two forms can never collide on disk. -/
inductive DirName where
  | plain (t : String)
  | withYear (t : String) (y : Nat)
  deriving DecidableEq

/-- Content of a `metadata.json` file: unreadable JSON, or a document with an
optional `year` field plus the rest of the payload (abstracted to a tag). -/
inductive MetaDoc where
  | corrupt
  | doc (year : Option Nat) (payload : Nat)
  deriving DecidableEq

/-- One backup directory: which of `poster_original.jpg`, `poster_overlay.jpg`
and `metadata.json` exist in it. -/
structure BackupEntry where
  hasOriginal : Bool
  hasOverlay : Bool
  metadata : Option MetaDoc
  deriving DecidableEq

def emptyEntry : BackupEntry := ⟨false, false, none⟩

/-- A backup directory is addressed by (library name, directory name). -/
abbrev BKey := String × DirName

/-- The backup root: a directory exists iff the map holds an entry for it. -/
def Store := BKey → Option BackupEntry

def Store.empty : Store := fun _ => none

/-- Point update of the store (directory created, replaced or removed). -/
def upd (s : Store) (k : BKey) (v : Option BackupEntry) : Store :=
  fun k2 => if k2 = k then v else s k2

def dirNameFor (t : String) : Option Nat → DirName
  | some y => .withYear t y
  | none => .plain t

/-- The directory key `_get_backup_path` resolves to; it depends only on the
arguments, not on the store. -/
def keyFor (lib title : String) (year : Option Nat) : BKey :=
  (lib, dirNameFor (sanitizeTitle title) (effYear year))

/-- Migration guard in `_get_backup_path` (backup_manager.py lines 62-77):
migrate when the old record's metadata file is missing, unreadable, or its
`year` field is absent or equals the looked-up year. -/
def shouldMigrate (e : BackupEntry) (y : Nat) : Bool :=
  match e.metadata with
  | none => true
  | some .corrupt => true
  | some (.doc oy _) => oy.isNone || oy == some y

/-- Side effect of `_get_backup_path` (backup_manager.py lines 57-84): when a
year-qualified lookup misses but the legacy year-less directory exists and the
guard passes, the legacy directory is renamed into the year-qualified key. -/
def migrateStep (s : Store) (lib title : String) (year : Option Nat) : Store :=
  match effYear year with
  | none => s
  | some y =>
    match s (lib, .withYear (sanitizeTitle title) y) with
    | some _ => s
    | none =>
      match s (lib, .plain (sanitizeTitle title)) with
      | none => s
      | some oldE =>
        if shouldMigrate oldE y then
          upd (upd s (lib, .plain (sanitizeTitle title)) none)
            (lib, .withYear (sanitizeTitle title) y) (some oldE)
        else s

/-- `_get_backup_path`: performs the migration side effect and returns the
resolved directory key. -/
def getBackupPath (s : Store) (lib title : String) (year : Option Nat) : Store × BKey :=
  (migrateStep s lib title year, keyFor lib title year)

/-- Year stored in an entry's metadata, as `meta.get('year')` reads it
(no file or unreadable file both read as absent). -/
def metaYear (e : BackupEntry) : Option Nat :=
  match e.metadata with
  | some (.doc oy _) => oy
  | _ => none

/-- `has_backup` (backup_manager.py lines 102-116): resolve the path (with its
migration side effect), then test `poster_original.jpg`. -/
def has_backup (s : Store) (lib title : String) (year : Option Nat) : Store × Bool :=
  let s1 := migrateStep s lib title year
  (s1, match s1 (keyFor lib title year) with
       | some e => e.hasOriginal
       | none => false)

/-- `has_overlay` (backup_manager.py lines 118-132): resolve the path, then
test `poster_overlay.jpg`. -/
def has_overlay (s : Store) (lib title : String) (year : Option Nat) : Store × Bool :=
  let s1 := migrateStep s lib title year
  (s1, match s1 (keyFor lib title year) with
       | some e => e.hasOverlay
       | none => false)

/-- `get_original_poster` (backup_manager.py lines 213-230): path of the
original if present. -/
def get_original_poster (s : Store) (lib title : String) (year : Option Nat) :
    Store × Option BKey :=
  let s1 := migrateStep s lib title year
  match s1 (keyFor lib title year) with
  | some e => if e.hasOriginal then (s1, some (keyFor lib title year)) else (s1, none)
  | none => (s1, none)

/-- `backup_poster` (backup_manager.py lines 134-211).  `dOk` models the
poster download succeeding, `vOk` the downloaded bytes verifying as an image.
The directory is created up front (`mkdir`); if an original exists and `force`
is not set the call returns immediately; a failed download or verification
removes any partially written original and returns failure; on success the
original is written and the metadata document is (re)written. -/
def backup_poster (s : Store) (lib title : String) (newMeta : MetaDoc)
    (force : Bool) (year : Option Nat) (dOk vOk : Bool) : Store × Bool :=
  let s1 := migrateStep s lib title year
  let k := keyFor lib title year
  let e := (s1 k).getD emptyEntry
  let s2 := upd s1 k (some e)
  if e.hasOriginal && !force then (s2, true)
  else if !dOk then (upd s2 k (some { e with hasOriginal := false }), false)
  else if !vOk then (upd s2 k (some { e with hasOriginal := false }), false)
  else (upd s2 k (some { e with hasOriginal := true, metadata := some newMeta }), true)

/-- `save_overlay_poster` (backup_manager.py lines 232-264).  `validSrc`
models the source overlay image opening successfully; the write itself fails
(exception caught, returns None) when the backup directory does not exist. -/
def save_overlay_poster (s : Store) (lib title : String) (year : Option Nat)
    (validSrc : Bool) : Store × Bool :=
  let s1 := migrateStep s lib title year
  let k := keyFor lib title year
  if !validSrc then (s1, false)
  else
    match s1 k with
    | none => (s1, false)
    | some e => (upd s1 k (some { e with hasOverlay := true }), true)

/-- `restore_original` (backup_manager.py lines 266-300).  Fails when no
original is backed up; `uploadOk` models `plex_item.uploadPoster` succeeding —
only after a successful upload is the overlay file deleted. -/
def restore_original (s : Store) (lib title : String) (year : Option Nat)
    (uploadOk : Bool) : Store × Bool :=
  let g := get_original_poster s lib title year
  match g.2 with
  | none => (g.1, false)
  | some _ =>
    if !uploadOk then (g.1, false)
    else
      let s2 := migrateStep g.1 lib title year
      let k := keyFor lib title year
      match s2 k with
      | none => (s2, true)
      | some e => (upd s2 k (some { e with hasOverlay := false }), true)

/-- `cleanup_backup` (backup_manager.py lines 357-383): unconditional
`shutil.rmtree` of the resolved directory. -/
def cleanup_backup (s : Store) (lib title : String) (year : Option Nat) : Store × Bool :=
  let s1 := migrateStep s lib title year
  let k := keyFor lib title year
  match s1 k with
  | none => (s1, false)
  | some _ => (upd s1 k none, true)

/-- One call into the backup store, with its external-effect oracles. -/
inductive StoreOp where
  | hasBackupOp (lib title : String) (year : Option Nat)
  | hasOverlayOp (lib title : String) (year : Option Nat)
  | getOriginalOp (lib title : String) (year : Option Nat)
  | backupOp (lib title : String) (meta : MetaDoc) (force : Bool) (year : Option Nat)
      (dOk vOk : Bool)
  | saveOverlayOp (lib title : String) (year : Option Nat) (validSrc : Bool)
  | restoreOp (lib title : String) (year : Option Nat) (uploadOk : Bool)
  | cleanupOp (lib title : String) (year : Option Nat)

/-- State left by one store operation. -/
def applyOp (s : Store) : StoreOp → Store
  | .hasBackupOp l t y => (has_backup s l t y).1
  | .hasOverlayOp l t y => (has_overlay s l t y).1
  | .getOriginalOp l t y => (get_original_poster s l t y).1
  | .backupOp l t m f y d v => (backup_poster s l t m f y d v).1
  | .saveOverlayOp l t y ok => (save_overlay_poster s l t y ok).1
  | .restoreOp l t y ok => (restore_original s l t y ok).1
  | .cleanupOp l t y => (cleanup_backup s l t y).1

/-- States reachable through a sequence of store operations. -/
def runOps (s : Store) (ops : List StoreOp) : Store := ops.foldl applyOp s

/-- A `backup_poster` call whose download succeeded and verified; every other
operation is unconditionally good. -/
def goodOp : StoreOp → Bool
  | .backupOp _ _ _ _ _ d v => d && v
  | _ => true

/-- Every existing backup directory holds an original poster. -/
def StoreInv (s : Store) : Prop := ∀ k e, s k = some e → e.hasOriginal = true

/-! ## `PlexPosterManager.process_movie` (plex_poster_manager.py lines 131-281) -/

/-- One element of a Plex item's `ratings` array. -/
structure PlexRatingEntry where
  rtype : String
  value : ℚ
  image : String
  deriving DecidableEq

/-- The Plex item fields `process_movie` reads. -/
structure Movie where
  title : String
  year : Option Nat
  tmdbId : Option Nat
  imdbId : Option String
  ratingsArr : List PlexRatingEntry
  posterUrl : Option String
  ratingKey : Nat
  deriving DecidableEq

/-- The per-source rating dictionary (keys `tmdb`, `imdb`, `rt_critic`,
`rt_audience`; a field is `some` iff the key is present). -/
structure RatingsMap where
  tmdb : Option ℚ
  imdb : Option ℚ
  rt_critic : Option ℚ
  rt_audience : Option ℚ
  deriving DecidableEq

def RatingsMap.emptyMap : RatingsMap := ⟨none, none, none, none⟩

/-- Classification of one native rating entry by `_extract_plex_ratings`
(plex_poster_manager.py lines 105-129); RT values are multiplied by 10. -/
def classifyPlexRating (acc : RatingsMap) (r : PlexRatingEntry) : RatingsMap :=
  if r.rtype = "critic" && strContains r.image "rottentomatoes" then
    { acc with rt_critic := some (r.value * 10) }
  else if r.rtype = "audience" && strContains r.image "rottentomatoes" then
    { acc with rt_audience := some (r.value * 10) }
  else if r.rtype = "audience" && strContains r.image "imdb" then
    { acc with imdb := some r.value }
  else if r.rtype = "audience" && strContains r.image "themoviedb" then
    { acc with tmdb := some r.value }
  else acc

/-- `_extract_plex_ratings`: fold the item's ratings array. -/
def extract_plex_ratings (arr : List PlexRatingEntry) : RatingsMap :=
  arr.foldl classifyPlexRating RatingsMap.emptyMap

/-- External collaborators of one `process_movie` call: the rating endpoints
(`none` = call failed or field missing/unusable) and the poster
download/verify/upload oracles. -/
structure ProcEnv where
  tmdbApi : Option ℚ
  omdbImdb : Option ℚ
  mdbRtCritic : Option ℚ
  mdbRtAudience : Option ℚ
  downloadOk : Bool
  validImage : Bool
  uploadOk : Bool
  deriving DecidableEq

/-- Python truthiness of a numeric dict value (`if d.get(k):`): 0 is falsy. -/
def numTruthy : Option ℚ → Option ℚ
  | some v => if v = 0 then none else some v
  | none => none

/-- Python truthiness of an optional string: None and "" are falsy. -/
def strTruthy : Option String → Bool
  | some s => !s.isEmpty
  | none => false

/-- Result of one `process_movie` call: the store it leaves behind, the
boolean the function returns, whether `save_overlay_poster` recorded an
overlay during the call, and the assembled ratings dict (none if the call
aborted before assembling it). -/
structure ProcOutcome where
  store : Store
  ok : Bool
  overlayApplied : Bool
  ratings : Option RatingsMap

/-- Priority merge of plex_poster_manager.py lines 164-216: Plex-native values
first, then external fallbacks for the still-missing sources (IMDb rating via
OMDb, RT values via MDBList, where a zero numeric field is falsy and a missing
IMDb guid skips all fallbacks). -/
def buildRatings (m : Movie) (env : ProcEnv) (plexR : RatingsMap) (tmdbVal : ℚ) :
    RatingsMap :=
  let r2 : RatingsMap :=
    { tmdb := some tmdbVal
      imdb := plexR.imdb
      rt_critic := plexR.rt_critic
      rt_audience := plexR.rt_audience }
  if strTruthy m.imdbId then
    let r3 := if r2.imdb.isNone then { r2 with imdb := env.omdbImdb } else r2
    let r4 :=
      if r3.rt_critic.isNone then { r3 with rt_critic := numTruthy env.mdbRtCritic } else r3
    if r4.rt_audience.isNone then { r4 with rt_audience := numTruthy env.mdbRtAudience }
    else r4
  else r2

/-- Tail of `process_movie` after the ratings dict is assembled
(plex_poster_manager.py lines 218-277): dry-run short-circuit, poster-URL
check, backup (aborting the item on failure), overlay save (result unchecked),
upload (an upload exception is caught and yields False). -/
def processUpload (s : Store) (lib : String) (m : Movie) (env : ProcEnv)
    (force dryRun : Bool) (ratings : RatingsMap) : ProcOutcome :=
  if dryRun then ⟨s, true, false, some ratings⟩
  else if !(strTruthy m.posterUrl) then ⟨s, false, false, some ratings⟩
  else
    let meta : MetaDoc := .doc m.year m.ratingKey
    let bk := backup_poster s lib m.title meta force none env.downloadOk env.validImage
    if !bk.2 then ⟨bk.1, false, false, some ratings⟩
    else
      let so := save_overlay_poster bk.1 lib m.title none true
      if !env.uploadOk then ⟨so.1, false, so.2, some ratings⟩
      else ⟨so.1, true, so.2, some ratings⟩

/-- `process_movie` (plex_poster_manager.py lines 131-281).  Note that the
already-processed check and every backup-store call pass no year, and that a
zero TMDB value is rejected only in the API-fallback branch. -/
def process_movie (s : Store) (lib : String) (m : Movie) (env : ProcEnv)
    (force dryRun : Bool) : ProcOutcome :=
  match m.tmdbId with
  | none => ⟨s, false, false, none⟩
  | some _ =>
    let hb := has_backup s lib m.title none
    if !force && hb.2 then ⟨hb.1, false, false, none⟩
    else
      let plexR := extract_plex_ratings m.ratingsArr
      match plexR.tmdb with
      | some v => processUpload hb.1 lib m env force dryRun (buildRatings m env plexR v)
      | none =>
        match env.tmdbApi with
        | none => ⟨hb.1, false, false, none⟩
        | some r =>
          if r = 0 then ⟨hb.1, false, false, none⟩
          else processUpload hb.1 lib m env force dryRun (buildRatings m env plexR r)

/-! ## Web backend job state (web/backend/main.py) -/

/-- The module-level `processing_state` dict. -/
structure ProcState where
  is_processing : Bool
  current_library : Option String
  progress : Nat
  total : Nat
  success : Nat
  failed : Nat
  skipped : Nat
  current_item : Option String
  stop_requested : Bool
  force_mode : Bool
  deriving DecidableEq

/-- The fields of a `/api/process` request the start handler uses. -/
structure ProcessRequest where
  library_name : String
  force : Bool
  deriving DecidableEq

/-- Response of the `/api/process` handler. -/
inductive ApiResponse where
  | errorResp (msg : String)
  | started (lib : String)
  deriving DecidableEq

/-- `start_processing` (main.py lines 177-188): reject when a pass is
running, otherwise schedule the background task (third component: whether
`asyncio.create_task` was called). -/
def start_processing (st : ProcState) (req : ProcessRequest) :
    ApiResponse × ProcState × Bool :=
  if st.is_processing then (.errorResp "Processing already in progress", st, false)
  else (.started req.library_name, st, true)

/-- Three-state result of one item inside the pass loop
(main.py lines 425-431). -/
inductive ItemResult where
  | success
  | skipped
  | failed
  deriving DecidableEq

/-- Counter update for one item result. -/
def applyResult (st : ProcState) : ItemResult → ProcState
  | .success => { st with success := st.success + 1 }
  | .skipped => { st with skipped := st.skipped + 1 }
  | .failed => { st with failed := st.failed + 1 }

/-- Ghost schedule of the external stop request: with `stopAfter = some k` the
flag is observed set once `k` items have completed (the request arrived while
item `k` was in flight); `none` = never requested. -/
def stopSet (stopAfter : Option Nat) (done : Nat) : Bool :=
  match stopAfter with
  | some k => decide (k ≤ done)
  | none => false

/-- The item loop of `process_library_background` (main.py lines 401-437):
before each item the stop flag is checked and the loop breaks if it is set;
otherwise progress and the current item are published, the item is processed
and exactly one of the three counters advances. -/
def processPass (st : ProcState) (items : List (String × ItemResult)) (done : Nat)
    (stopAfter : Option Nat) : ProcState :=
  match items with
  | [] => st
  | (title, r) :: rest =>
    let st1 := { st with stop_requested := st.stop_requested || stopSet stopAfter done }
    if st1.stop_requested then st1
    else
      let st2 := { st1 with progress := done + 1, current_item := some title }
      processPass (applyResult st2 r) rest (done + 1) stopAfter

/-- State reset at the start of `process_library_background`
(main.py lines 363-373 and 396: fields reset for the new run, then `total` is
set to the item count); the stop flag is intentionally not reset here. -/
def startState (st : ProcState) (lib : String) (force : Bool) (total : Nat) : ProcState :=
  { st with
    is_processing := true
    current_library := some lib
    progress := 0
    total := total
    success := 0
    failed := 0
    skipped := 0
    current_item := none
    force_mode := force }

/-- `process_library_background` (main.py lines 358-469) with the per-item
manager results and the stop schedule as inputs: reset the state, record the
total, run the loop, then clear the running and stop flags. -/
def process_library_background (st : ProcState) (lib : String) (force : Bool)
    (items : List (String × ItemResult)) (stopAfter : Option Nat) : ProcState :=
  let st2 := startState st lib force items.length
  let st3 := processPass st2 items 0 stopAfter
  { st3 with is_processing := false, stop_requested := false }

/-- Count of items with a given result. -/
def countRes (r : ItemResult) (items : List (String × ItemResult)) : Nat :=
  (items.filter (fun p => p.2 = r)).length

/-! ## `MultiRatingBadge` (multi_rating_badge.py) -/

/-- The style options the badge code reads (each `.get` with a default). -/
structure BadgeStyle where
  individual_badge_size : Option ℚ
  font_size_multiplier : Option ℚ
  badge_width_percent : Option ℚ
  rating_color : Option String
  background_opacity : Option ℚ
  deriving DecidableEq

/-- Numeric text placed on a badge: either an integer with a trailing percent
glyph (`f"\x7bint(rating)\x7d"` plus a separately drawn `%`), or the value
rendered to one decimal place with no suffix (`f"\x7brating:.1f\x7d"`). -/
inductive RatingLabel where
  | percentLabel (n : ℤ)
  | oneDecimalLabel (q : ℚ)
  deriving DecidableEq

/-- Logo selection in `create_individual_badge`
(multi_rating_badge.py lines 231-236). -/
def indivLogoKey (source : String) (rating : ℚ) : String :=
  if source = "rt_critic" then
    if 60 ≤ rating then "rt_fresh" else "rt_rotten"
  else if source = "rt_audience" then
    if 60 ≤ rating then "rt_audience_fresh" else "rt_audience_rotten"
  else source

/-- Rating text formatting in `create_individual_badge`
(multi_rating_badge.py lines 285-291). -/
def indivLabel (source : String) (rating : ℚ) : RatingLabel :=
  if source = "rt_critic" || source = "rt_audience" then .percentLabel (pyInt rating)
  else .oneDecimalLabel rating

/-- Logo selection in `_draw_rating_row`
(multi_rating_badge.py lines 355-368). -/
def rowLogoKey (source : String) (rating : ℚ) : String :=
  if source = "rt" || source = "rt_critic" then
    if 60 ≤ rating then "rt_fresh" else "rt_rotten"
  else if source = "rt_audience" then
    if 60 ≤ rating then "rt_audience_fresh" else "rt_audience_rotten"
  else source

/-- Rating text formatting in `_draw_rating_row`
(multi_rating_badge.py lines 424-462). -/
def rowLabel (source : String) (rating : ℚ) : RatingLabel :=
  if source = "rt" || source = "rt_critic" || source = "rt_audience" then
    .percentLabel (pyInt rating)
  else .oneDecimalLabel rating

/-- The observable content of one compact individual badge. -/
structure IndBadge where
  widthPx : ℤ
  heightPx : ℤ
  logoKey : String
  label : RatingLabel
  deriving DecidableEq

/-- `create_individual_badge` (multi_rating_badge.py lines 184-336): badge
geometry from the style's size percentage, logo variant and label from the
source and value. -/
def create_individual_badge (source : String) (rating : ℚ) (posterW _posterH : ℤ)
    (style : BadgeStyle) : IndBadge :=
  let pct := (style.individual_badge_size.getD 12) / 100
  let w := pyInt ((posterW : ℚ) * pct)
  { widthPx := w
    heightPx := pyInt ((w : ℚ) * (14 / 10))
    logoKey := indivLogoKey source rating
    label := indivLabel source rating }

/-- One percentage-coordinate position entry of the `badge_positions` map
(missing `x`/`y` default to 5 at the read site). -/
structure BadgePos where
  x : Option ℚ
  y : Option ℚ
  deriving DecidableEq

/-- First-match association-list lookup (Python dict access). -/
def alookup {α : Type} : List (String × α) → String → Option α
  | [], _ => none
  | p :: rest, k => if p.1 = k then some p.2 else alookup rest k

/-- One compositing action of `apply_to_poster`: pasting an individual badge
for one source at pixel coordinates, or pasting the single unified badge whose
rows carry (source, logo key, label) in dict order. -/
inductive PasteEvent where
  | indiv (source : String) (badge : IndBadge) (x y : ℤ)
  | unified (rows : List (String × String × RatingLabel)) (x y : ℤ)
  deriving DecidableEq

/-- Unified badge size (`create_multi_rating_badge`,
multi_rating_badge.py lines 134-142). -/
def multiBadgeSize (posterW : ℤ) (n : Nat) (style : BadgeStyle) : ℤ × ℤ :=
  let pct := (style.badge_width_percent.getD 35) / 100
  let w := pyInt ((posterW : ℚ) * pct)
  let rowh := pyInt ((w : ℚ) * (27 / 100))
  let pad := pyInt ((w : ℚ) * (3 / 100))
  (w, (n : ℤ) * rowh + 2 * pad)

/-- Unified-mode branch of `apply_to_poster`
(multi_rating_badge.py lines 553-589): one badge with all rating rows,
anchored to one of four corners with a 2% edge offset (unknown position
strings fall back to northeast). -/
def applyUnified (posterW posterH : ℤ) (ratings : List (String × ℚ))
    (position : String) (style : BadgeStyle) : List PasteEvent :=
  let rows := ratings.map (fun p => (p.1, rowLogoKey p.1 p.2, rowLabel p.1 p.2))
  let sz := multiBadgeSize posterW ratings.length style
  let ox := pyInt ((posterW : ℚ) * (2 / 100))
  let oy := pyInt ((posterH : ℚ) * (2 / 100))
  let xy : ℤ × ℤ :=
    if position = "northeast" then (posterW - sz.1 - ox, oy)
    else if position = "northwest" then (ox, oy)
    else if position = "southeast" then (posterW - sz.1 - ox, posterH - sz.2 - oy)
    else if position = "southwest" then (ox, posterH - sz.2 - oy)
    else (posterW - sz.1 - ox, oy)
  [.unified rows xy.1 xy.2]

/-- `apply_to_poster` (multi_rating_badge.py lines 483-589), as the list of
badge paste operations applied to the poster.  The mode test mirrors Python's
`if badge_positions:` truthiness: a missing or empty map selects the legacy
unified mode; otherwise each rating source is pasted iff its key is present in
the position map. -/
def apply_to_poster (posterW posterH : ℤ) (ratings : List (String × ℚ))
    (position : String) (style : BadgeStyle)
    (badge_positions : Option (List (String × BadgePos))) : List PasteEvent :=
  match badge_positions with
  | some bps =>
    if bps.isEmpty then applyUnified posterW posterH ratings position style
    else
      ratings.filterMap (fun p =>
        match alookup bps p.1 with
        | none => none
        | some pos =>
          let xp := pos.x.getD 5
          let yp := pos.y.getD 5
          some (.indiv p.1 (create_individual_badge p.1 p.2 posterW posterH style)
            (pyInt (xp / 100 * (posterW : ℚ))) (pyInt (yp / 100 * (posterH : ℚ)))))
  | none => applyUnified posterW posterH ratings position style

/-! ## Concrete instances used to evaluate the model on sample inputs -/

/-- An item whose Plex-native TMDB audience rating is 0.0. -/
def c1Movie : Movie :=
  { title := "Alpha"
    year := some 2020
    tmdbId := some 42
    imdbId := none
    ratingsArr := [⟨"audience", 0, "image://themoviedb"⟩]
    posterUrl := some "http://plex/poster"
    ratingKey := 7 }

/-- Fully healthy external collaborators. -/
def c1Env : ProcEnv := ⟨some 5, none, none, none, true, true, true⟩

/-- An item with no Plex-native ratings at all. -/
def c1wMovie : Movie :=
  { title := "Beta"
    year := some 2021
    tmdbId := some 43
    imdbId := none
    ratingsArr := []
    posterUrl := some "http://plex/poster2"
    ratingKey := 8 }

/-- Collaborators whose TMDB endpoint reports a 0.0 vote average. -/
def c1wEnv : ProcEnv := ⟨some 0, none, none, none, true, true, true⟩

/-- A backup whose download fails, followed by a successful overlay save. -/
def c2ops : List StoreOp :=
  [.backupOp "Movies" "Alpha" (.doc (some 2020) 1) false none false true,
   .saveOverlayOp "Movies" "Alpha" none true]

/-- The same trace with the download succeeding. -/
def c2goodOps : List StoreOp :=
  [.backupOp "Movies" "Alpha" (.doc (some 2020) 1) false none true true,
   .saveOverlayOp "Movies" "Alpha" none true]

/-- A legacy year-less record whose stored metadata year is 2003. -/
def c3Entry : BackupEntry := ⟨true, false, some (.doc (some 2003) 0)⟩

/-- A store holding only that legacy record. -/
def c3Store : Store :=
  fun k => if k = ("Movies", DirName.plain "The Italian Job") then some c3Entry else none

/-- A legacy record whose stored metadata year is 1975. -/
def c3Entry75 : BackupEntry := ⟨true, false, some (.doc (some 1975) 0)⟩

/-- A store holding only that 1975 record. -/
def c3Store75 : Store :=
  fun k => if k = ("Movies", DirName.plain "The Italian Job") then some c3Entry75 else none

/-- A key that already has an original and a metadata document. -/
def c4Entry : BackupEntry := ⟨true, false, some (.doc (some 2001) 7)⟩

/-- A store holding only that backed-up key. -/
def c4Store : Store :=
  fun k => if k = ("Movies", DirName.plain "Gamma") then some c4Entry else none

/-- A processing state in the middle of a run. -/
def c5State : ProcState :=
  { is_processing := true
    current_library := some "Movies"
    progress := 3
    total := 9
    success := 2
    failed := 0
    skipped := 1
    current_item := some "Alpha"
    stop_requested := false
    force_mode := false }

def c5Req : ProcessRequest := ⟨"Shows", false⟩

/-- An idle processing state. -/
def c6State0 : ProcState :=
  ⟨false, none, 0, 0, 0, 0, 0, none, false, false⟩

/-- Ten items with mixed outcomes. -/
def c6Items : List (String × ItemResult) :=
  [("i1", .success), ("i2", .failed), ("i3", .skipped), ("i4", .success), ("i5", .success),
   ("i6", .success), ("i7", .failed), ("i8", .skipped), ("i9", .success), ("i10", .success)]

def c7Ratings : List (String × ℚ) := [("tmdb", 85 / 10), ("imdb", 7), ("rt_critic", 42)]

def c7Bps : List (String × BadgePos) :=
  [("tmdb", ⟨some 2, some 2⟩), ("rt_critic", ⟨some 70, some 78⟩)]

def c7Style : BadgeStyle := ⟨none, none, none, none, none⟩

/-- Overlay recorded with no backed-up original (failed download, then save). -/
def c9aOps : List StoreOp :=
  [.backupOp "Movies" "NineA" (.doc (some 2020) 1) false none false true,
   .saveOverlayOp "Movies" "NineA" none true]

/-- Backup and overlay both present. -/
def c9bOps : List StoreOp :=
  [.backupOp "Movies" "NineB" (.doc (some 2020) 2) false none true true,
   .saveOverlayOp "Movies" "NineB" none true]

/-- A store with a year-less backup for the sanitized title used by c10Movie. -/
def c10Store : Store :=
  fun k => if k = ("Movies", DirName.plain "Delta") then some ⟨true, false, none⟩ else none

/-- An item whose release year differs from the year of the stored backup. -/
def c10Movie : Movie :=
  { title := "Delta"
    year := some 1975
    tmdbId := some 99
    imdbId := none
    ratingsArr := []
    posterUrl := some "http://plex/poster3"
    ratingKey := 9 }

def c10Env : ProcEnv := ⟨some 8, none, none, none, true, true, true⟩

/-! ## Basic store lemmas -/

theorem upd_self (s : Store) (k : BKey) (v : Option BackupEntry) : upd s k v k = v := by
  simp [upd]

theorem upd_ne (s : Store) (k k2 : BKey) (v : Option BackupEntry) (h : k2 ≠ k) :
    upd s k v k2 = s k2 := by
  simp [upd, h]

theorem upd_upd (s : Store) (k : BKey) (v1 v2 : Option BackupEntry) :
    upd (upd s k v1) k v2 = upd s k v2 := by
  funext k2
  unfold upd
  by_cases h : k2 = k <;> simp [h]

theorem effYear_of_ne_zero (y : Nat) (hy : y ≠ 0) : effYear (some y) = some y := by
  cases y with
  | zero => exact absurd rfl hy
  | succ n => rfl

theorem migrateStep_of_present (s : Store) (lib title : String) (year : Option Nat)
    (e : BackupEntry) (h : s (keyFor lib title year) = some e) :
    migrateStep s lib title year = s := by
  unfold migrateStep
  unfold keyFor dirNameFor at h
  cases hy : effYear year with
  | none => rfl
  | some y =>
    rw [hy] at h
    simp only at h
    simp only [h]

theorem shouldMigrate_iff (e : BackupEntry) (y : Nat) :
    shouldMigrate e y = true ↔ (metaYear e = none ∨ metaYear e = some y) := by
  unfold shouldMigrate metaYear
  cases hm : e.metadata with
  | none => simp
  | some d =>
    cases d with
    | corrupt => simp
    | doc oy p => cases oy <;> simp

theorem keyFor_of_effYear_some (lib title : String) (year : Option Nat) (y : Nat)
    (h : effYear year = some y) :
    keyFor lib title year = (lib, DirName.withYear (sanitizeTitle title) y) := by
  unfold keyFor
  rw [h]
  rfl

theorem migrateStep_cases (s : Store) (lib title : String) (year : Option Nat) :
    migrateStep s lib title year = s
      ∨ ∃ y oldE, effYear year = some y
          ∧ s (lib, DirName.plain (sanitizeTitle title)) = some oldE
          ∧ migrateStep s lib title year
            = upd (upd s (lib, DirName.plain (sanitizeTitle title)) none)
                (lib, DirName.withYear (sanitizeTitle title) y) (some oldE) := by
  unfold migrateStep
  split
  · exact Or.inl rfl
  · rename_i y hy
    split
    · exact Or.inl rfl
    · split
      · exact Or.inl rfl
      · rename_i oldE hok
        by_cases hsm : shouldMigrate oldE y = true
        · rw [if_pos hsm]
          exact Or.inr ⟨y, oldE, hy, hok, rfl⟩
        · rw [if_neg hsm]
          exact Or.inl rfl

theorem storeInv_upd {s : Store} (hs : StoreInv s) {k : BKey} {v : Option BackupEntry}
    (hv : ∀ e, v = some e → e.hasOriginal = true) : StoreInv (upd s k v) := by
  intro k2 e h
  by_cases hk : k2 = k
  · subst hk
    rw [upd_self] at h
    exact hv e h
  · rw [upd_ne _ _ _ _ hk] at h
    exact hs k2 e h

theorem storeInv_migrate {s : Store} (hs : StoreInv s) (lib title : String)
    (year : Option Nat) : StoreInv (migrateStep s lib title year) := by
  rcases migrateStep_cases s lib title year with h | ⟨y, oldE, hy, hok, h⟩
  · rw [h]; exact hs
  · rw [h]
    refine storeInv_upd (storeInv_upd hs ?_) ?_
    · intro e2 h2; exact Option.noConfusion h2
    · intro e2 h2
      cases h2
      exact hs _ oldE hok

theorem storeInv_upd_upd {s : Store} (hs : StoreInv s) {k : BKey}
    {v1 v2 : Option BackupEntry} (hv : ∀ e, v2 = some e → e.hasOriginal = true) :
    StoreInv (upd (upd s k v1) k v2) := by
  rw [upd_upd]
  exact storeInv_upd hs hv

theorem get_original_poster_fst (s : Store) (lib title : String) (year : Option Nat) :
    (get_original_poster s lib title year).1 = migrateStep s lib title year := by
  simp only [get_original_poster]
  split
  · split <;> rfl
  · rfl

theorem storeInv_backup_good {s : Store} (hs : StoreInv s) (lib title : String)
    (m : MetaDoc) (force : Bool) (year : Option Nat) :
    StoreInv (backup_poster s lib title m force year true true).1 := by
  have hinv1 := storeInv_migrate hs lib title year
  simp only [backup_poster, Bool.not_true]
  split
  · rename_i hcond
    refine storeInv_upd hinv1 ?_
    intro e2 h2
    cases h2
    simp only [Bool.and_eq_true] at hcond
    exact hcond.1
  · split
    · rename_i hcontra
      exact absurd hcontra (by simp)
    · refine storeInv_upd_upd hinv1 ?_
      intro e2 h2
      cases h2
      rfl

theorem storeInv_saveOverlay {s : Store} (hs : StoreInv s) (lib title : String)
    (year : Option Nat) (ok : Bool) :
    StoreInv (save_overlay_poster s lib title year ok).1 := by
  have hinv1 := storeInv_migrate hs lib title year
  simp only [save_overlay_poster]
  split
  · exact hinv1
  · split
    · exact hinv1
    · rename_i e heq
      refine storeInv_upd hinv1 ?_
      intro e2 h2
      cases h2
      exact hinv1 _ e heq

theorem storeInv_restore {s : Store} (hs : StoreInv s) (lib title : String)
    (year : Option Nat) (ok : Bool) :
    StoreInv (restore_original s lib title year ok).1 := by
  have hinv1 : StoreInv (get_original_poster s lib title year).1 := by
    rw [get_original_poster_fst]
    exact storeInv_migrate hs lib title year
  have hinv2 := storeInv_migrate hinv1 lib title year
  simp only [restore_original]
  split
  · exact hinv1
  · split
    · exact hinv1
    · split
      · exact hinv2
      · rename_i e heq
        refine storeInv_upd hinv2 ?_
        intro e2 h2
        cases h2
        exact hinv2 _ e heq

theorem storeInv_cleanup {s : Store} (hs : StoreInv s) (lib title : String)
    (year : Option Nat) : StoreInv (cleanup_backup s lib title year).1 := by
  have hinv1 := storeInv_migrate hs lib title year
  simp only [cleanup_backup]
  split
  · exact hinv1
  · refine storeInv_upd hinv1 ?_
    intro e2 h2
    exact Option.noConfusion h2

theorem storeInv_applyOp {s : Store} (hs : StoreInv s) {op : StoreOp}
    (hop : goodOp op = true) : StoreInv (applyOp s op) := by
  cases op with
  | hasBackupOp l t y => exact storeInv_migrate hs l t y
  | hasOverlayOp l t y => exact storeInv_migrate hs l t y
  | getOriginalOp l t y =>
    show StoreInv (get_original_poster s l t y).1
    rw [get_original_poster_fst]
    exact storeInv_migrate hs l t y
  | backupOp l t m f y d v =>
    simp only [goodOp, Bool.and_eq_true] at hop
    obtain ⟨hd, hv2⟩ := hop
    subst hd
    subst hv2
    exact storeInv_backup_good hs l t m f y
  | saveOverlayOp l t y ok => exact storeInv_saveOverlay hs l t y ok
  | restoreOp l t y ok => exact storeInv_restore hs l t y ok
  | cleanupOp l t y => exact storeInv_cleanup hs l t y

theorem storeInv_runOps_from {s : Store} (ops : List StoreOp) (hs : StoreInv s)
    (h : ∀ op ∈ ops, goodOp op = true) : StoreInv (runOps s ops) := by
  induction ops generalizing s with
  | nil => exact hs
  | cons op rest ih =>
    have h1 : goodOp op = true := h op (List.mem_cons_self op rest)
    have h2 : ∀ o ∈ rest, goodOp o = true := fun o ho => h o (List.mem_cons_of_mem op ho)
    exact ih (storeInv_applyOp hs h1) h2

theorem storeInv_empty : StoreInv Store.empty := by
  intro k e h
  exact Option.noConfusion h

theorem overlay_imp_backup {s : Store} (hs : StoreInv s) (lib title : String)
    (year : Option Nat) (h : (has_overlay s lib title year).2 = true) :
    (has_backup s lib title year).2 = true := by
  have hinv1 := storeInv_migrate hs lib title year
  simp only [has_overlay] at h
  simp only [has_backup]
  cases hk : migrateStep s lib title year (keyFor lib title year) with
  | none => simp [hk] at h
  | some e => exact hinv1 _ e hk

/-! ## Claim theorems -/

/-- C3: a year-qualified lookup that misses while a legacy year-less record
exists renames the legacy record into the year-qualified location if and only
if the legacy record's stored metadata year is absent or equals the looked-up
year; in particular a record stored with a different year is never migrated.
All year-aware store operations perform exactly this `migrateStep` when
resolving their path. -/
theorem C3_migration_guard (s : Store) (lib title : String) (y : Nat) (e : BackupEntry)
    (hy : y ≠ 0)
    (hnew : s (lib, DirName.withYear (sanitizeTitle title) y) = none)
    (hold : s (lib, DirName.plain (sanitizeTitle title)) = some e) :
    (migrateStep s lib title (some y) (lib, DirName.withYear (sanitizeTitle title) y) = some e
      ∧ migrateStep s lib title (some y) (lib, DirName.plain (sanitizeTitle title)) = none)
    ↔ (metaYear e = none ∨ metaYear e = some y) := by
  have hne : (lib, DirName.plain (sanitizeTitle title))
      ≠ (lib, DirName.withYear (sanitizeTitle title) y) := by
    intro hcontra
    exact DirName.noConfusion (congrArg Prod.snd hcontra)
  simp only [migrateStep, effYear_of_ne_zero y hy]
  simp only [hnew, hold]
  by_cases hsm : shouldMigrate e y = true
  · rw [if_pos hsm]
    refine iff_of_true ⟨?_, ?_⟩ ((shouldMigrate_iff e y).mp hsm)
    · exact upd_self _ _ _
    · rw [upd_ne _ _ _ _ hne]
      exact upd_self _ _ _
  · rw [if_neg hsm]
    refine iff_of_false ?_ ?_
    · intro hcontra
      rw [hnew] at hcontra
      exact Option.noConfusion hcontra.1
    · intro hcontra
      exact hsm ((shouldMigrate_iff e y).mpr hcontra)

/-- C3 witness: a legacy record stored with year 1975 is not migrated when the
lookup asks for year 2003. -/
theorem C3_migration_guard_witness :
    ¬ (migrateStep c3Store75 "Movies" "The Italian Job" (some 2003)
          ("Movies", DirName.withYear (sanitizeTitle "The Italian Job") 2003) = some c3Entry75
        ∧ migrateStep c3Store75 "Movies" "The Italian Job" (some 2003)
          ("Movies", DirName.plain (sanitizeTitle "The Italian Job")) = none) := by
  intro hcontra
  have h := (C3_migration_guard c3Store75 "Movies" "The Italian Job" 2003 c3Entry75
      (by decide) (by decide) (by decide)).mp hcontra
  exact absurd h (by decide)

/-- C2 counterexample: the claimed invariant is false for the store as
implemented.  A backup_poster call whose download fails still creates the
key's directory; a subsequent save_overlay_poster then succeeds, reaching a
state where has_overlay is true while has_backup is false. -/
theorem C2_counterexample :
    (has_overlay (runOps Store.empty c2ops) "Movies" "Alpha" none).2 = true
      ∧ (has_backup (runOps Store.empty c2ops) "Movies" "Alpha" none).2 = false := by
  decide

/-- C2 (amended): in every state reachable from the empty store through store
operations in which each backup_poster call's download succeeds and verifies
as a valid image, has_overlay = true implies has_backup = true for every
key. -/
theorem C2_overlay_implies_backup (ops : List StoreOp)
    (hgood : ∀ op ∈ ops, goodOp op = true) (lib title : String) (year : Option Nat)
    (h : (has_overlay (runOps Store.empty ops) lib title year).2 = true) :
    (has_backup (runOps Store.empty ops) lib title year).2 = true :=
  overlay_imp_backup (storeInv_runOps_from ops storeInv_empty hgood) lib title year h

/-- C2 witness: the counterexample trace with the download succeeding. -/
theorem C2_overlay_implies_backup_witness :
    (has_backup (runOps Store.empty c2goodOps) "Movies" "Alpha" none).2 = true :=
  C2_overlay_implies_backup c2goodOps (by decide) "Movies" "Alpha" none (by decide)

/-- C9 counterexample: the claim is false for two reachable situations:
(a) a key holding an overlay but no backed-up original — restore_original
fails before uploading and the overlay survives; (b) a key holding both files
whose poster upload fails — the overlay again survives the restore call. -/
theorem C9_counterexample :
    ((has_overlay (runOps Store.empty c9aOps) "Movies" "NineA" none).2 = true
      ∧ (has_overlay
          (restore_original (runOps Store.empty c9aOps) "Movies" "NineA" none true).1
          "Movies" "NineA" none).2 = true)
    ∧ ((has_overlay (runOps Store.empty c9bOps) "Movies" "NineB" none).2 = true
      ∧ (has_overlay
          (restore_original (runOps Store.empty c9bOps) "Movies" "NineB" none false).1
          "Movies" "NineB" none).2 = true) := by
  decide

/-- For a key whose original is present, get_original_poster returns the
migrated store and the resolved key. -/
theorem get_original_poster_snd_some (s : Store) (lib title : String)
    (year : Option Nat) (e : BackupEntry)
    (hk : migrateStep s lib title year (keyFor lib title year) = some e)
    (ho : e.hasOriginal = true) :
    get_original_poster s lib title year
      = (migrateStep s lib title year, some (keyFor lib title year)) := by
  simp only [get_original_poster]
  rw [hk]
  simp [ho]

/-- C9 (amended): for any key that currently has a backed-up original (in
particular any key with both an overlay and a backup), calling
restore_original with a successful upload returns true and a subsequent
has_overlay on the same key returns false. -/
theorem C9_restore_clears_overlay (s : Store) (lib title : String) (year : Option Nat)
    (hb : (has_backup s lib title year).2 = true) :
    (restore_original s lib title year true).2 = true
      ∧ (has_overlay (restore_original s lib title year true).1 lib title year).2
        = false := by
  simp only [has_backup] at hb
  cases hk : migrateStep s lib title year (keyFor lib title year) with
  | none => rw [hk] at hb; simp at hb
  | some e =>
    rw [hk] at hb
    simp only at hb
    have hg := get_original_poster_snd_some s lib title year e hk hb
    have hm2 : migrateStep (migrateStep s lib title year) lib title year
        = migrateStep s lib title year :=
      migrateStep_of_present _ lib title year e hk
    have hrestore : restore_original s lib title year true
        = (upd (migrateStep s lib title year) (keyFor lib title year)
            (some { e with hasOverlay := false }), true) := by
      simp only [restore_original, hg, hm2, hk, Bool.not_true, Bool.false_eq_true,
        if_false]
    refine ⟨by rw [hrestore], ?_⟩
    rw [hrestore]
    have hkey2 : (upd (migrateStep s lib title year) (keyFor lib title year)
          (some { e with hasOverlay := false })) (keyFor lib title year)
        = some { e with hasOverlay := false } := upd_self _ _ _
    have hm3 := migrateStep_of_present _ lib title year _ hkey2
    simp only [has_overlay, hm3, hkey2]

/-- C9 witness for the amended claim: a key with both a backup and an overlay,
restored with a successful upload, no longer reports an overlay. -/
theorem C9_restore_clears_overlay_witness :
    (restore_original (runOps Store.empty c9bOps) "Movies" "NineB" none true).2 = true
      ∧ (has_overlay
          (restore_original (runOps Store.empty c9bOps) "Movies" "NineB" none true).1
          "Movies" "NineB" none).2 = false :=
  C9_restore_clears_overlay (runOps Store.empty c9bOps) "Movies" "NineB" none (by decide)

/-- C4 counterexample: a backup_poster call that skips the download (original
present, force false) leaves the key's metadata document unchanged — the new
metadata is not written, contradicting the claim that metadata is (re)written
on every call. -/
theorem C4_counterexample :
    (backup_poster c4Store "Movies" "Gamma" (.doc (some 2001) 8) false none true true).2
        = true
      ∧ (backup_poster c4Store "Movies" "Gamma" (.doc (some 2001) 8) false none true
          true).1 ("Movies", DirName.plain "Gamma") = some c4Entry := by
  decide

/-- C4 (amended): backup_poster writes the original only when no original
exists for the key or force is set, and it (re)writes the metadata document
exactly on the calls that perform the download; a call that skips the
download leaves the key's entry — including its metadata — unchanged, and a
failed download or verification discards the original without touching
metadata. -/
theorem C4_backup_writes (s : Store) (lib title : String) (m : MetaDoc)
    (force : Bool) (year : Option Nat) (e : BackupEntry)
    (he : (migrateStep s lib title year (keyFor lib title year)).getD emptyEntry = e) :
    ((e.hasOriginal = true ∧ force = false) →
      (backup_poster s lib title m force year true true).1 (keyFor lib title year)
          = some e
        ∧ (backup_poster s lib title m force year true true).2 = true)
    ∧ (¬(e.hasOriginal = true ∧ force = false) →
      (backup_poster s lib title m force year true true).1 (keyFor lib title year)
          = some { e with hasOriginal := true, metadata := some m }
        ∧ (backup_poster s lib title m force year true true).2 = true)
    ∧ (∀ dOk vOk : Bool, ¬(e.hasOriginal = true ∧ force = false) → (dOk && vOk) = false →
      (backup_poster s lib title m force year dOk vOk).1 (keyFor lib title year)
          = some { e with hasOriginal := false }
        ∧ (backup_poster s lib title m force year dOk vOk).2 = false) := by
  refine ⟨?_, ?_, ?_⟩
  · rintro ⟨h1, h2⟩
    subst h2
    simp only [backup_poster, he, h1, Bool.not_false, Bool.and_true, if_pos]
    exact ⟨upd_self _ _ _, trivial⟩
  · intro hn
    have hcond : (e.hasOriginal && !force) = false := by
      cases ho : e.hasOriginal <;> cases hf : force <;> simp_all
    simp only [backup_poster, he, hcond, Bool.false_eq_true, if_false, Bool.not_true]
    rw [upd_upd]
    exact ⟨upd_self _ _ _, trivial⟩
  · intro dOk vOk hn hdv
    have hcond : (e.hasOriginal && !force) = false := by
      cases ho : e.hasOriginal <;> cases hf : force <;> simp_all
    simp only [backup_poster, he, hcond, Bool.false_eq_true, if_false]
    split
    · exact ⟨by rw [upd_upd]; exact upd_self _ _ _, rfl⟩
    · rename_i hdOk
      split
      · exact ⟨by rw [upd_upd]; exact upd_self _ _ _, rfl⟩
      · rename_i hvOk
        exfalso
        cases dOk
        · simp at hdOk
        · cases vOk
          · simp at hvOk
          · simp at hdv

/-- C4 witness: a first-time backup (no existing entry) writes the original
and the metadata document. -/
theorem C4_backup_writes_witness :
    (backup_poster Store.empty "Movies" "Delta" (.doc none 3) false none true true).1
        (keyFor "Movies" "Delta" none)
      = some { emptyEntry with hasOriginal := true, metadata := some (.doc none 3) }
      ∧ (backup_poster Store.empty "Movies" "Delta" (.doc none 3) false none true
          true).2 = true :=
  (C4_backup_writes Store.empty "Movies" "Delta" (.doc none 3) false none emptyEntry
      (by decide)).2.1 (by decide)

theorem applyResult_success (st : ProcState) (r : ItemResult) :
    (applyResult st r).success = st.success + (if r = .success then 1 else 0) := by
  cases r <;> simp [applyResult]

theorem applyResult_failed (st : ProcState) (r : ItemResult) :
    (applyResult st r).failed = st.failed + (if r = .failed then 1 else 0) := by
  cases r <;> simp [applyResult]

theorem applyResult_skipped (st : ProcState) (r : ItemResult) :
    (applyResult st r).skipped = st.skipped + (if r = .skipped then 1 else 0) := by
  cases r <;> simp [applyResult]

theorem applyResult_stop (st : ProcState) (r : ItemResult) :
    (applyResult st r).stop_requested = st.stop_requested := by
  cases r <;> rfl

theorem applyResult_isproc (st : ProcState) (r : ItemResult) :
    (applyResult st r).is_processing = st.is_processing := by
  cases r <;> rfl

theorem countRes_cons (r : ItemResult) (p : String × ItemResult)
    (l : List (String × ItemResult)) :
    countRes r (p :: l) = (if p.2 = r then 1 else 0) + countRes r l := by
  by_cases h : p.2 = r
  · simp [countRes, h, Nat.add_comm]
  · simp [countRes, h]

theorem countRes_total (l : List (String × ItemResult)) :
    countRes .success l + countRes .failed l + countRes .skipped l = l.length := by
  induction l with
  | nil => rfl
  | cons p rest ih =>
    rw [countRes_cons, countRes_cons, countRes_cons, List.length_cons]
    cases h : p.2 <;> simp [h] <;> omega

theorem processPass_stop_counts (items : List (String × ItemResult)) :
    ∀ (st : ProcState) (done k : Nat), st.stop_requested = false → done ≤ k →
      k ≤ done + items.length →
      (processPass st items done (some k)).success
          = st.success + countRes .success (items.take (k - done))
        ∧ (processPass st items done (some k)).failed
          = st.failed + countRes .failed (items.take (k - done))
        ∧ (processPass st items done (some k)).skipped
          = st.skipped + countRes .skipped (items.take (k - done))
        ∧ (processPass st items done (some k)).is_processing = st.is_processing := by
  induction items with
  | nil =>
    intro st done k h0 h1 h2
    simp [processPass, countRes]
  | cons p rest ih =>
    obtain ⟨title, r⟩ := p
    intro st done k h0 h1 h2
    by_cases hk : k ≤ done
    · have hkd : k = done := Nat.le_antisymm hk h1
      subst hkd
      simp [processPass, stopSet, h0, countRes]
    · have hss : stopSet (some k) done = false := by
        simp only [stopSet, decide_eq_false_iff_not]
        omega
      have hcondf : ¬((({ st with
          stop_requested := st.stop_requested || stopSet (some k) done } :
            ProcState).stop_requested) = true) := by
        simp [h0, hss]
      have hstep : processPass st ((title, r) :: rest) done (some k)
          = processPass (applyResult { st with
              stop_requested := st.stop_requested || stopSet (some k) done,
              progress := done + 1, current_item := some title } r) rest (done + 1)
            (some k) := by
        simp only [processPass]
        rw [if_neg hcondf]
      rw [hstep]
      have hE0 : (applyResult { st with
          stop_requested := st.stop_requested || stopSet (some k) done,
          progress := done + 1, current_item := some title } r).stop_requested
          = false := by
        rw [applyResult_stop]
        simp [h0, hss]
      have hlen2 : k ≤ (done + 1) + rest.length := by
        simp only [List.length_cons] at h2
        omega
      obtain ⟨ihs, ihf, ihk2, ihp⟩ := ih (applyResult { st with
          stop_requested := st.stop_requested || stopSet (some k) done,
          progress := done + 1, current_item := some title } r) (done + 1) k hE0
        (by omega) hlen2
      have htake : (((title, r) :: rest).take (k - done))
          = (title, r) :: rest.take (k - (done + 1)) := by
        have hkk : k - done = (k - (done + 1)) + 1 := by omega
        rw [hkk, List.take_succ_cons]
      refine ⟨?_, ?_, ?_, ?_⟩
      · rw [ihs, applyResult_success, htake, countRes_cons]
        simp only
        omega
      · rw [ihf, applyResult_failed, htake, countRes_cons]
        simp only
        omega
      · rw [ihk2, applyResult_skipped, htake, countRes_cons]
        simp only
        omega
      · rw [ihp, applyResult_isproc]

/-- C6: when the stop flag is set during a pass (observed after k of n items,
k at most n), the pass ends at the next item boundary: the loop stops, the
running flag is cleared, the stop flag is reset, the counters are exactly the
per-result counts of the first k items (nothing is rolled back), and
success + failed + skipped = k. -/
theorem C6_stop_at_item_boundary (st : ProcState) (lib : String) (force : Bool)
    (items : List (String × ItemResult)) (k : Nat)
    (h0 : st.stop_requested = false) (hk : k ≤ items.length) :
    (process_library_background st lib force items (some k)).is_processing = false
      ∧ (process_library_background st lib force items (some k)).stop_requested = false
      ∧ (process_library_background st lib force items (some k)).success
        = countRes .success (items.take k)
      ∧ (process_library_background st lib force items (some k)).failed
        = countRes .failed (items.take k)
      ∧ (process_library_background st lib force items (some k)).skipped
        = countRes .skipped (items.take k)
      ∧ (process_library_background st lib force items (some k)).success
          + (process_library_background st lib force items (some k)).failed
          + (process_library_background st lib force items (some k)).skipped
        = k := by
  have hst2 : (startState st lib force items.length).stop_requested = false := by
    simp [startState, h0]
  obtain ⟨hs, hf, hsk, hp⟩ := processPass_stop_counts items
    (startState st lib force items.length) 0 k hst2 (Nat.zero_le k) (by simpa using hk)
  have hzs : (startState st lib force items.length).success = 0 := rfl
  have hzf : (startState st lib force items.length).failed = 0 := rfl
  have hzk : (startState st lib force items.length).skipped = 0 := rfl
  rw [hzs, Nat.zero_add, Nat.sub_zero] at hs
  rw [hzf, Nat.zero_add, Nat.sub_zero] at hf
  rw [hzk, Nat.zero_add, Nat.sub_zero] at hsk
  have hlen : (items.take k).length = k := by
    rw [List.length_take]
    omega
  have hsum : (processPass (startState st lib force items.length) items 0
        (some k)).success
      + (processPass (startState st lib force items.length) items 0 (some k)).failed
      + (processPass (startState st lib force items.length) items 0 (some k)).skipped
      = k := by
    rw [hs, hf, hsk, countRes_total, hlen]
  exact ⟨rfl, rfl, hs, hf, hsk, hsum⟩

/-- C6 witness: stop observed after item 5 of 10 — exactly 5 items counted. -/
theorem C6_stop_at_item_boundary_witness :
    (process_library_background c6State0 "Movies" false c6Items (some 5)).is_processing
        = false
      ∧ (process_library_background c6State0 "Movies" false c6Items
          (some 5)).stop_requested = false
      ∧ (process_library_background c6State0 "Movies" false c6Items (some 5)).success
        = countRes .success (c6Items.take 5)
      ∧ (process_library_background c6State0 "Movies" false c6Items (some 5)).failed
        = countRes .failed (c6Items.take 5)
      ∧ (process_library_background c6State0 "Movies" false c6Items (some 5)).skipped
        = countRes .skipped (c6Items.take 5)
      ∧ (process_library_background c6State0 "Movies" false c6Items (some 5)).success
          + (process_library_background c6State0 "Movies" false c6Items (some 5)).failed
          + (process_library_background c6State0 "Movies" false c6Items (some 5)).skipped
        = 5 :=
  C6_stop_at_item_boundary c6State0 "Movies" false c6Items 5 (by decide) (by decide)

/-- C5: while the running flag is set, a second start-processing request is
answered with an error, the processing state is returned with every field
unchanged, and no background task is created. -/
theorem C5_second_start_rejected (st : ProcState) (req : ProcessRequest)
    (h : st.is_processing = true) :
    start_processing st req = (.errorResp "Processing already in progress", st, false) := by
  simp [start_processing, h]

/-- C5 witness at a mid-run state. -/
theorem C5_second_start_rejected_witness :
    start_processing c5State c5Req
      = (.errorResp "Processing already in progress", c5State, false) :=
  C5_second_start_rejected c5State c5Req (by decide)

/-- C1 counterexample: an item whose primary TMDB value, taken from the host
server's own metadata entries, is exactly 0 is not skipped — process_movie
returns success and records an overlay.  The zero check exists only in the
TMDB API-fallback branch. -/
theorem C1_counterexample :
    (extract_plex_ratings c1Movie.ratingsArr).tmdb = some 0
      ∧ (process_movie Store.empty "Movies" c1Movie c1Env false false).ok = true
      ∧ (process_movie Store.empty "Movies" c1Movie c1Env false false).overlayApplied
        = true := by
  decide

/-- C1 (amended): when the host metadata has no TMDB entry and the TMDB API
fallback fails or reports 0, the item is skipped — process_movie returns
false and applies no overlay.  (A zero TMDB value present in the host
metadata is used as-is and can yield success.) -/
theorem C1_missing_or_zero_api_tmdb_skips (s : Store) (lib : String) (m : Movie)
    (env : ProcEnv) (force dryRun : Bool)
    (hplex : (extract_plex_ratings m.ratingsArr).tmdb = none)
    (happ : env.tmdbApi = none ∨ env.tmdbApi = some 0) :
    (process_movie s lib m env force dryRun).ok = false
      ∧ (process_movie s lib m env force dryRun).overlayApplied = false := by
  cases hid : m.tmdbId with
  | none => simp [process_movie, hid]
  | some v =>
    simp only [process_movie, hid]
    split
    · exact ⟨rfl, rfl⟩
    · simp only [hplex]
      rcases happ with h3 | h3
      · simp [h3]
      · simp [h3]

/-- C1 witness for the amended claim: no host TMDB entry, API reports 0.0. -/
theorem C1_missing_or_zero_api_tmdb_skips_witness :
    (process_movie Store.empty "Movies" c1wMovie c1wEnv false false).ok = false
      ∧ (process_movie Store.empty "Movies" c1wMovie c1wEnv false false).overlayApplied
        = false :=
  C1_missing_or_zero_api_tmdb_skips Store.empty "Movies" c1wMovie c1wEnv false false
    (by decide) (Or.inr (by decide))

/-- C10: the already-processed check passes only the library and title to
has_backup — never the item's release year — so with force false, any item
whose sanitized title has a year-less backup in the library is reported
already processed: the call returns the skip outcome with the store unchanged
and no overlay applied, for every release year the item may carry. -/
theorem C10_already_processed_ignores_year (s : Store) (lib : String) (m : Movie)
    (env : ProcEnv) (dryRun : Bool) (v : Nat) (hid : m.tmdbId = some v)
    (hb : (has_backup s lib m.title none).2 = true) :
    process_movie s lib m env false dryRun = ⟨s, false, false, none⟩ := by
  simp only [process_movie, hid, Bool.not_false, Bool.true_and, hb, if_true]
  rfl

/-- C10 witness: an item dated 1975 is skipped because a year-less backup of
the same title exists, whatever year created it. -/
theorem C10_already_processed_ignores_year_witness :
    process_movie c10Store "Movies" c10Movie c10Env false false
      = ⟨c10Store, false, false, none⟩ :=
  C10_already_processed_ignores_year c10Store "Movies" c10Movie c10Env false 99
    (by decide) (by decide)

theorem alookup_some_mem {α : Type} (l : List (String × α)) (k : String) (v : α)
    (h : alookup l k = some v) : k ∈ l.map Prod.fst := by
  induction l with
  | nil => exact Option.noConfusion h
  | cons p rest ih =>
    simp only [alookup] at h
    by_cases hp : p.1 = k
    · subst hp
      simp
    · rw [if_neg hp] at h
      simp only [List.map_cons, List.mem_cons]
      exact Or.inr (ih h)

theorem mem_alookup_isSome {α : Type} (l : List (String × α)) (k : String)
    (h : k ∈ l.map Prod.fst) : ∃ v, alookup l k = some v := by
  induction l with
  | nil => simp at h
  | cons p rest ih =>
    by_cases hp : p.1 = k
    · exact ⟨p.2, by simp [alookup, hp]⟩
    · simp only [List.map_cons, List.mem_cons] at h
      rcases h with h | h
      · exact absurd h.symm hp
      · obtain ⟨v, hv⟩ := ih h
        exact ⟨v, by simp [alookup, hp, hv]⟩

/-- C7: in individual badge mode (non-empty badge_positions supplied to
apply_to_poster), an individual badge for a source is composited iff the
source appears in the ratings dict and its key is present in the position
map; moreover every compositing action of this mode is an individual badge,
so a source absent from the position map never appears in the output. -/
theorem C7_individual_mode_iff (posterW posterH : ℤ) (ratings : List (String × ℚ))
    (position : String) (style : BadgeStyle) (bps : List (String × BadgePos))
    (hbp : bps ≠ []) (source : String) :
    ((∃ b x y, PasteEvent.indiv source b x y
        ∈ apply_to_poster posterW posterH ratings position style (some bps))
      ↔ (source ∈ ratings.map Prod.fst ∧ source ∈ bps.map Prod.fst))
    ∧ (∀ ev ∈ apply_to_poster posterW posterH ratings position style (some bps),
        ∃ src b x y, ev = PasteEvent.indiv src b x y) := by
  have hbe : bps.isEmpty = false := by
    cases bps with
    | nil => exact absurd rfl hbp
    | cons q qs => rfl
  simp only [apply_to_poster, hbe, Bool.false_eq_true, if_false]
  constructor
  · constructor
    · rintro ⟨b, x, y, hmem⟩
      rw [List.mem_filterMap] at hmem
      obtain ⟨p, hp, hfp⟩ := hmem
      cases hl : alookup bps p.1 with
      | none =>
        rw [hl] at hfp
        exact Option.noConfusion hfp
      | some pos =>
        simp only [hl, Option.some.injEq, PasteEvent.indiv.injEq] at hfp
        obtain ⟨h1, -, -, -⟩ := hfp
        subst h1
        exact ⟨List.mem_map_of_mem Prod.fst hp, alookup_some_mem _ _ _ hl⟩
    · rintro ⟨h1, h2⟩
      rw [List.mem_map] at h1
      obtain ⟨p, hp, hps⟩ := h1
      subst hps
      obtain ⟨pos, hpos⟩ := mem_alookup_isSome bps p.1 h2
      refine ⟨create_individual_badge p.1 p.2 posterW posterH style,
        pyInt ((pos.x.getD 5) / 100 * (posterW : ℚ)),
        pyInt ((pos.y.getD 5) / 100 * (posterH : ℚ)), ?_⟩
      rw [List.mem_filterMap]
      exact ⟨p, hp, by simp [hpos]⟩
  · intro ev hev
    rw [List.mem_filterMap] at hev
    obtain ⟨p, hp, hfp⟩ := hev
    cases hl : alookup bps p.1 with
    | none =>
      rw [hl] at hfp
      exact Option.noConfusion hfp
    | some pos =>
      simp only [hl, Option.some.injEq] at hfp
      exact ⟨p.1, _, _, _, hfp.symm⟩

/-- C7 witness: imdb is present in the RatingSet but absent from the position
map, so no badge for it is composited. -/
theorem C7_individual_mode_iff_witness :
    ¬ (∃ b x y, PasteEvent.indiv "imdb" b x y
        ∈ apply_to_poster 1000 1500 c7Ratings "northwest" c7Style (some c7Bps)) := by
  intro hcontra
  have h := (C7_individual_mode_iff 1000 1500 c7Ratings "northwest" c7Style c7Bps
      (by decide) "imdb").1.mp hcontra
  exact absurd h.2 (by decide)

/-- C8: for the percentage-style sources the individual badge and the unified
badge row both pick the fresh/positive logo variant exactly when the value is
at least 60 and render the value as a truncated integer with a percent glyph,
while the 0-10 sources keep their own logo and render the value to one decimal
place with no suffix. -/
theorem C8_variant_and_format :
    ∀ (rating : ℚ) (posterW posterH : ℤ) (style : BadgeStyle),
      (create_individual_badge "rt_critic" rating posterW posterH style).logoKey
          = (if 60 ≤ rating then "rt_fresh" else "rt_rotten")
        ∧ (create_individual_badge "rt_audience" rating posterW posterH style).logoKey
          = (if 60 ≤ rating then "rt_audience_fresh" else "rt_audience_rotten")
        ∧ (create_individual_badge "rt_critic" rating posterW posterH style).label
          = .percentLabel (pyInt rating)
        ∧ (create_individual_badge "rt_audience" rating posterW posterH style).label
          = .percentLabel (pyInt rating)
        ∧ (create_individual_badge "tmdb" rating posterW posterH style).label
          = .oneDecimalLabel rating
        ∧ (create_individual_badge "imdb" rating posterW posterH style).label
          = .oneDecimalLabel rating
        ∧ (create_individual_badge "tmdb" rating posterW posterH style).logoKey = "tmdb"
        ∧ (create_individual_badge "imdb" rating posterW posterH style).logoKey = "imdb"
        ∧ rowLogoKey "rt_critic" rating = (if 60 ≤ rating then "rt_fresh" else "rt_rotten")
        ∧ rowLogoKey "rt_audience" rating
          = (if 60 ≤ rating then "rt_audience_fresh" else "rt_audience_rotten")
        ∧ rowLabel "rt_critic" rating = .percentLabel (pyInt rating)
        ∧ rowLabel "rt_audience" rating = .percentLabel (pyInt rating)
        ∧ rowLabel "tmdb" rating = .oneDecimalLabel rating
        ∧ rowLabel "imdb" rating = .oneDecimalLabel rating := by
  intro rating posterW posterH style
  refine ⟨?_, ?_, ?_, ?_, ?_, ?_, ?_, ?_, ?_, ?_, ?_, ?_, ?_, ?_⟩ <;>
    simp [create_individual_badge, indivLogoKey, indivLabel, rowLogoKey, rowLabel]

end Kometizarr
